import Mathlib

/-!
# Verification of the naga-explorer payment / chain-management client

Shallow embedding of the client-side orchestration code of the
LIT-Protocol/naga-explorer repository, and proofs settling the frozen
claims about it.

Embedded sources:
* the chain registry (`DEFAULT_CHAINS`, `validateChainConfig`,
  `addCustomChain`, `getAllChains`) from the chain-configuration module;
* the `PaymentManagementDashboard` React component
  (`src/lit-logged-page/protectedApp/components/PaymentManagement/PaymentManagementDashboard.tsx`):
  its state hooks, its async handlers (`loadBalance`, `handleDeposit`,
  `handleDepositForUser`, `handleRequestWithdraw`, `handleExecuteWithdraw`,
  `loadWithdrawalStatus`), its auto-refresh effect and its PKP account
  derivation effect.

Async JavaScript code is embedded by splitting every `async` handler into a
"start" function (the synchronous prefix up to the first `await`: guards,
in-flight flags, the remote call it issues) and a "resolve" function (the
continuation run when the awaited promise settles, applied to the value the
promise produced and to the values the closure captured at invocation time).
Outstanding promises are tracked explicitly in the state.  BigInt values are
embedded as `Int`; JavaScript string truthiness (`a || b`) is embedded by
treating the empty string as the falsy/absent value.
-/

/-! ## JavaScript string primitives -/

/-- JavaScript `String.prototype.trim`: drop whitespace from both ends.
The source calls `slug.trim()` and `name.trim()`. -/
def jsTrim (s : String) : String :=
  String.mk (((s.data.dropWhile Char.isWhitespace).reverse.dropWhile
    Char.isWhitespace).reverse)

/-- JavaScript `a || b` on strings: the empty string is falsy. -/
def strOr (a b : String) : String := if a = "" then b else a

/-! ## Chain registry (chain-configuration module)

The module keeps custom chains in `localStorage` under one key, as a JSON
record from slug to `ChainConfig`.  The record is embedded as an association
list; `loadCustomChains`/`saveCustomChains` pass the stored record through
unchanged, so storage is embedded as the record value itself. -/

/-- `ChainConfig` of the source.  `explorerUrl` is optional in the source;
an absent or empty value is embedded as `""` (both are falsy where the
source tests `cfg.explorerUrl &&`). -/
structure ChainConfig where
  id : Int
  name : String
  symbol : String
  rpcUrl : String
  explorerUrl : String
  litIdentifier : String
  testnet : Bool
deriving DecidableEq

/-- Key lookup in a record embedded as an association list (the source's
property access / `Object.prototype.hasOwnProperty`). -/
def lookupSlug : List (String × ChainConfig) → String → Option ChainConfig
  | [], _ => none
  | (k, c) :: rest, s => if k = s then some c else lookupSlug rest s

/-- `DEFAULT_CHAINS` of the source, all seven entries (the `local` entry is
commented out in the source and therefore absent). -/
def DEFAULT_CHAINS : List (String × ChainConfig) :=
  [ ("yellowstone",
     { id := 175188, name := "Chronicle Yellowstone", symbol := "tstLPX",
       rpcUrl := "https://yellowstone-rpc.litprotocol.com/",
       explorerUrl := "https://yellowstone-explorer.litprotocol.com/",
       litIdentifier := "yellowstone", testnet := true }),
    ("ethereum",
     { id := 1, name := "Ethereum", symbol := "ETH",
       rpcUrl := "https://eth.llamarpc.com",
       explorerUrl := "https://etherscan.io/",
       litIdentifier := "ethereum", testnet := false }),
    ("sepolia",
     { id := 11155111, name := "Sepolia Testnet", symbol := "ETH",
       rpcUrl := "https://ethereum-sepolia-rpc.publicnode.com",
       explorerUrl := "https://sepolia.etherscan.io/",
       litIdentifier := "sepolia", testnet := true }),
    ("polygon",
     { id := 137, name := "Polygon", symbol := "MATIC",
       rpcUrl := "https://polygon-bor-rpc.publicnode.com",
       explorerUrl := "https://polygonscan.com/",
       litIdentifier := "polygon", testnet := false }),
    ("arbitrum",
     { id := 42161, name := "Arbitrum", symbol := "AETH",
       rpcUrl := "https://arbitrum-one-rpc.publicnode.com",
       explorerUrl := "https://arbiscan.io/",
       litIdentifier := "arbitrum", testnet := false }),
    ("base",
     { id := 8453, name := "Base", symbol := "ETH",
       rpcUrl := "https://base-rpc.publicnode.com",
       explorerUrl := "https://basescan.org/",
       litIdentifier := "base", testnet := false }),
    ("optimism",
     { id := 10, name := "Optimism", symbol := "ETH",
       rpcUrl := "https://optimism-rpc.publicnode.com",
       explorerUrl := "https://optimistic.etherscan.io/",
       litIdentifier := "optimism", testnet := false }) ]

/-- `validateChainConfig` of the source.  URL well-formedness is decided by
the browser's `new URL(...)` constructor, an external runtime facility; it is
a parameter `isValidUrl` here.  The source's `!cfg` check cannot fire on a
value of the structure type, `Number.isInteger(cfg.id)` always holds of an
`Int`, and `typeof cfg.testnet !== 'boolean'` always fails on a `Bool`, so
those guards are vacuous in the embedding; the remaining checks are kept in
the source's order with the source's error strings. -/
def validateChainConfig (isValidUrl : String → Bool) (cfg : ChainConfig) :
    Except String Unit :=
  if cfg.id ≤ 0 then Except.error "id must be a positive integer"
  else if jsTrim cfg.name = "" then Except.error "name is required"
  else if jsTrim cfg.symbol = "" then Except.error "symbol is required"
  else if cfg.rpcUrl = "" ∨ isValidUrl cfg.rpcUrl = false then
    Except.error "rpcUrl must be a valid URL"
  else if cfg.explorerUrl ≠ "" ∧ isValidUrl cfg.explorerUrl = false then
    Except.error "explorerUrl must be a valid URL if provided"
  else if jsTrim cfg.litIdentifier = "" then
    Except.error "litIdentifier is required"
  else Except.ok ()

/-- `getAllChains` of the source: `{ ...DEFAULT_CHAINS, ...getCustomChains() }`,
embedded as its lookup function (a custom entry shadows a default one). -/
def getAllChains (custom : List (String × ChainConfig)) (slug : String) :
    Option ChainConfig :=
  match lookupSlug custom slug with
  | some c => some c
  | none => lookupSlug DEFAULT_CHAINS slug

/-- `addCustomChain` of the source.  `existingCustom` is the stored custom
record; on success the updated record `{ ...existingCustom, [safeSlug]: cfg }`
is returned (the slug is new, so the spread appends one entry).  The source's
`!slug ||` guard is subsumed by the trim check (`jsTrim "" = ""`), and
`safeSlug = slug.trim()` is inlined. -/
def addCustomChain (isValidUrl : String → Bool) (slug : String)
    (cfg : ChainConfig) (existingCustom : List (String × ChainConfig)) :
    Except String (List (String × ChainConfig)) :=
  if jsTrim slug = "" then Except.error "slug is required"
  else if (lookupSlug DEFAULT_CHAINS (jsTrim slug)).isSome then
    Except.error "Slug collides with a default chain"
  else if (lookupSlug existingCustom (jsTrim slug)).isSome then
    Except.error "Slug already exists"
  else
    match validateChainConfig isValidUrl cfg with
    | Except.error e => Except.error e
    | Except.ok _ => Except.ok (existingCustom ++ [(jsTrim slug, cfg)])

/-- Whether an `addCustomChain` result is the `{ ok: false, error }` shape. -/
def chainResultIsError : Except String (List (String × ChainConfig)) → Bool
  | Except.error _ => true
  | Except.ok _ => false

theorem lookupSlug_append (l : List (String × ChainConfig)) (k : String)
    (c : ChainConfig) (d : String) :
    lookupSlug (l ++ [(k, c)]) d =
      match lookupSlug l d with
      | some x => some x
      | none => if k = d then some c else none := by
  induction l with
  | nil => simp [lookupSlug]
  | cons hd tl ih =>
    obtain ⟨k', c'⟩ := hd
    by_cases h : k' = d
    · simp [lookupSlug, h]
    · simp [lookupSlug, h, ih]

/-- Claim C10 (amended): `addCustomChain(slug, cfg)` fails with an error for
a slug that trims to empty, a slug whose trimmed form equals a default
chain's slug, a slug whose trimmed form is already present among custom
chains, or a cfg rejected by `validateChainConfig`; and after a successful
`addCustomChain(slug, cfg)`, `getAllChains()` maps the *trimmed* slug
(`slug.trim()`, the key the source actually stores under) to exactly `cfg`,
while the entry of every default chain slug is unchanged. -/
theorem addCustomChain_spec (v : String → Bool) (slug : String)
    (cfg : ChainConfig) (store store' : List (String × ChainConfig)) :
    (jsTrim slug = "" →
      chainResultIsError (addCustomChain v slug cfg store) = true) ∧
    ((lookupSlug DEFAULT_CHAINS (jsTrim slug)).isSome = true →
      chainResultIsError (addCustomChain v slug cfg store) = true) ∧
    ((lookupSlug store (jsTrim slug)).isSome = true →
      chainResultIsError (addCustomChain v slug cfg store) = true) ∧
    (∀ e, validateChainConfig v cfg = Except.error e →
      chainResultIsError (addCustomChain v slug cfg store) = true) ∧
    (addCustomChain v slug cfg store = Except.ok store' →
      getAllChains store' (jsTrim slug) = some cfg ∧
      ∀ d, (lookupSlug DEFAULT_CHAINS d).isSome = true →
        getAllChains store' d = getAllChains store d) := by
  refine ⟨?_, ?_, ?_, ?_, ?_⟩
  · intro h
    simp [addCustomChain, h, chainResultIsError]
  · intro h
    unfold addCustomChain
    split_ifs <;> rfl
  · intro h
    unfold addCustomChain
    split_ifs <;> rfl
  · intro e he
    unfold addCustomChain
    split_ifs <;> first | rfl | (rw [he]; rfl)
  · intro h
    unfold addCustomChain at h
    split_ifs at h with h1 h2 h3
    cases hv : validateChainConfig v cfg with
    | error e =>
      rw [hv] at h
      exact absurd h (by simp)
    | ok u =>
      rw [hv] at h
      injection h with h'
      subst h'
      have hnone : lookupSlug store (jsTrim slug) = none := by
        cases hls : lookupSlug store (jsTrim slug) with
        | none => rfl
        | some x => rw [hls] at h3; simp at h3
      constructor
      · unfold getAllChains
        rw [lookupSlug_append, hnone]
        simp
      · intro d hd
        have hne : jsTrim slug ≠ d := by
          intro he
          rw [he] at h2
          exact h2 hd
        unfold getAllChains
        rw [lookupSlug_append]
        cases hls : lookupSlug store d with
        | some x => simp
        | none => simp [hne]

/-- A URL validator that accepts everything: stands for the browser's
`new URL(...)` succeeding on the URLs used in the concrete instances. -/
def anyUrlOk : String → Bool := fun _ => true

/-- A well-formed custom chain configuration used as concrete input. -/
def egChainCfg : ChainConfig :=
  { id := 424242, name := "My Chain", symbol := "MYC",
    rpcUrl := "https://rpc.example.org", explorerUrl := "",
    litIdentifier := "mychain", testnet := true }

/-- Counterexample to claim C10 as stated: `addCustomChain` with the
untrimmed slug `" mychain "` succeeds (the slug is stored trimmed), but
`getAllChains()` does not map the slug `" mychain "` that was passed in to
`cfg` — it maps nothing to that key. -/
theorem addCustomChain_untrimmed_cex :
    addCustomChain anyUrlOk " mychain " egChainCfg [] =
      Except.ok [("mychain", egChainCfg)] ∧
    getAllChains [("mychain", egChainCfg)] " mychain " = none := by
  exact ⟨rfl, by decide⟩

/-! ## PaymentManagementDashboard: data model

State hooks of the component, one field per `useState`.  A `PaymentManager`
session handle is opaque to the component; it is embedded as a `Nat` token
(a fresh token per `getPaymentManager` resolution), which is all the claims
need: they only ever compare session identities.  Success-pulse bookkeeping
(`successActions` / `showSuccess`) and the 3s/5s auto-clear timers of the
success and error banners are pure presentation timing and are not part of
any claim; they are elided.  `error` is the `error` state as `showError` /
`clearError` leave it. -/

/-- The two account sources of the component. -/
inductive AccountSource where
  | pkp
  | eoa
deriving DecidableEq

/-- A bound signing account; the component only reads its address
(`account?.address || account?.account?.address` is embedded as one
`address` field, empty when unresolvable). -/
structure Account where
  address : String
deriving DecidableEq

/-- `BalanceInfo` of the source: display strings plus exact `bigint`
(here `Int`) smallest-unit values. -/
structure BalanceInfo where
  totalBalance : String
  availableBalance : String
  rawTotalBalance : Int
  rawAvailableBalance : Int
deriving DecidableEq

/-- `WithdrawInfo` of the source. -/
structure WithdrawInfo where
  amount : String
  timestamp : String
  isPending : Bool
deriving DecidableEq

/-- `CanExecuteInfo` of the source. -/
structure CanExecuteInfo where
  canExecute : Bool
  timeRemaining : String
deriving DecidableEq

/-- A transaction result returned by a remote ledger call; the component
reads `result?.transactionHash || result?.hash` (absent fields are `""`). -/
structure TransactionResult where
  transactionHash : String
  hash : String
deriving DecidableEq

/-- The remote PaymentManager operations the component can issue. -/
inductive PMCall where
  | getBalance (userAddress : String)
  | deposit (amountInEth : String)
  | depositForUser (userAddress : String) (amountInEth : String)
  | requestWithdraw (amountInEth : String)
  | getWithdrawRequest (userAddress : String)
  | canExecuteWithdraw (userAddress : String)
  | withdraw (amountInEth : String)
  | getWithdrawDelay
deriving DecidableEq

/-- The two functions the component hands to `setTimeout`. -/
inductive ScheduledFn where
  | loadBalance
  | loadWithdrawalStatus
deriving DecidableEq

/-- Side effects of one handler step: remote calls issued, transaction
results emitted through `onTransactionComplete`, addresses passed to
`triggerLedgerRefresh`, and `setTimeout` registrations (delay in ms). -/
structure Effects where
  calls : List PMCall := []
  outcomes : List TransactionResult := []
  notifications : List String := []
  scheduled : List (Nat × ScheduledFn) := []
deriving DecidableEq

/-- The component props the claims depend on (immutable configuration).
`targetUserAddress` is `""` when the prop is not supplied. -/
structure DashProps where
  disablePkpOption : Bool := false
  fundPkOnly : Bool := false
  hideAccountSelection : Bool := false
  targetUserAddress : String := ""
deriving DecidableEq

/-- One outstanding (unresolved) `getBalance` promise, with the session and
address the `loadBalance` closure captured when it issued the call. -/
structure PendingBalanceCall where
  pm : Nat
  userAddress : String
deriving DecidableEq

/-- The component state: one field per `useState` hook the claims touch, plus
the explicit multiset of outstanding `getBalance` promises. -/
structure DashState where
  account : Option Account := none
  accountSource : AccountSource := AccountSource.pkp
  currentStep : Nat := 1
  fundingSuccess : Bool := false
  fundingTxHash : String := ""
  paymentManager : Option Nat := none
  loading : Bool := false
  balanceInfo : Option BalanceInfo := none
  isLoadingBalance : Bool := false
  autoRefreshBalance : Bool := true
  depositAmount : String := ""
  isDepositing : Bool := false
  depositForUserAddress : String := ""
  depositForUserAmount : String := ""
  isDepositingForUser : Bool := false
  withdrawAmount : String := ""
  isRequestingWithdraw : Bool := false
  withdrawInfo : Option WithdrawInfo := none
  canExecuteInfo : Option CanExecuteInfo := none
  isCheckingWithdraw : Bool := false
  isExecutingWithdraw : Bool := false
  error : String := ""
  pendingBalance : List PendingBalanceCall := []
deriving DecidableEq

/-- `account?.address || account?.account?.address` for an optional account. -/
def accountAddr : Option Account → String
  | some a => a.address
  | none => ""

/-! ## PaymentManagementDashboard: handlers

Each `async` handler is split into its synchronous start (up to the first
`await`) and the continuation applied when the awaited promise settles. -/

/-- Start of `loadBalance`: resolves the target address as
`targetUserAddress || account?.address || account?.account?.address`,
returns early when the PaymentManager or the address is missing, otherwise
sets the loading flag and issues `getBalance`.  The source has no in-flight
guard here: it never consults `isLoadingBalance` or the set of outstanding
calls before issuing a new one. -/
def loadBalanceStart (props : DashProps) (s : DashState) :
    DashState × List PMCall :=
  let accountAddress := strOr props.targetUserAddress (accountAddr s.account)
  match s.paymentManager with
  | none => (s, [])
  | some pm =>
    if accountAddress = "" then (s, [])
    else
      ({ s with isLoadingBalance := true,
                pendingBalance := s.pendingBalance ++ [⟨pm, accountAddress⟩] },
       [PMCall.getBalance accountAddress])

/-- Continuation of `loadBalance` when the `i`-th outstanding `getBalance`
promise resolves with `balance`: `setBalanceInfo(balance)` is applied
unconditionally — the source carries no generation stamp and never compares
the captured session/address against the current one — then the `finally`
clause clears the loading flag.  (`onBalanceChange?.(balance)` also fires;
no claim depends on it.) -/
def loadBalanceResolveOk (s : DashState) (i : Nat) (balance : BalanceInfo) :
    DashState :=
  if i < s.pendingBalance.length then
    { s with balanceInfo := some balance,
             isLoadingBalance := false,
             pendingBalance := s.pendingBalance.eraseIdx i }
  else s

/-- Continuation of `loadBalance` when the `i`-th outstanding `getBalance`
promise rejects: `showError`, then the `finally` clause. -/
def loadBalanceResolveErr (s : DashState) (i : Nat) (msg : String) :
    DashState :=
  if i < s.pendingBalance.length then
    { s with error := "Balance check failed: " ++ msg,
             isLoadingBalance := false,
             pendingBalance := s.pendingBalance.eraseIdx i }
  else s

/-- The auto-refresh effect is mounted exactly when
`autoRefreshBalance && paymentManager && account` holds; while mounted, its
`setInterval(loadBalance, 30000)` timer fires at fixed cadence. -/
def autoRefreshActive (s : DashState) : Bool :=
  s.autoRefreshBalance && s.paymentManager.isSome && s.account.isSome

/-- One auto-refresh timer tick: the interval exists only while the effect
is mounted, and each firing just invokes `loadBalance`. -/
def autoRefreshTick (props : DashProps) (s : DashState) :
    DashState × List PMCall :=
  if autoRefreshActive s then loadBalanceStart props s else (s, [])

/-- Start of `handleDeposit`: returns early when the PaymentManager or the
amount input is missing, else sets the in-flight flag, clears the error and
issues `deposit`. -/
def handleDepositStart (s : DashState) : DashState × List PMCall :=
  match s.paymentManager with
  | none => (s, [])
  | some _ =>
    if s.depositAmount = "" then (s, [])
    else
      ({ s with isDepositing := true, error := "" },
       [PMCall.deposit s.depositAmount])

/-- Success continuation of `handleDeposit`: emits the result through
`onTransactionComplete`, clears the amount input, schedules
`setTimeout(loadBalance, 2000)`, and fires `triggerLedgerRefresh`.  The
source computes `targetUserAddress || accountAddress`, but `accountAddress`
is not in scope in this handler: when `targetUserAddress` is falsy the
second operand raises a `ReferenceError` that the surrounding empty `catch`
swallows, so no notification fires; when it is truthy, `||`
short-circuits and the notification fires for it.  The `finally` clause
clears the in-flight flag. -/
def handleDepositResolveOk (props : DashProps) (s : DashState)
    (result : TransactionResult) : DashState × Effects :=
  ({ s with depositAmount := "", isDepositing := false },
   { outcomes := [result],
     notifications :=
       if props.targetUserAddress = "" then [] else [props.targetUserAddress],
     scheduled := [(2000, ScheduledFn.loadBalance)] })

/-- Start of `handleDepositForUser`: returns early when the PaymentManager,
the amount input or the recipient-address input is missing, else sets the
in-flight flag, clears the error and issues `depositForUser`. -/
def handleDepositForUserStart (s : DashState) : DashState × List PMCall :=
  match s.paymentManager with
  | none => (s, [])
  | some _ =>
    if s.depositForUserAmount = "" ∨ s.depositForUserAddress = "" then (s, [])
    else
      ({ s with isDepositingForUser := true, error := "" },
       [PMCall.depositForUser s.depositForUserAddress s.depositForUserAmount])

/-- Success continuation of `handleDepositForUser`, applied to the address
the closure captured at invocation time (the state setters do not change
the closure's `depositForUserAddress` binding): emits the result, clears
the amount input, in `hideAccountSelection` mode records the funding
success and transaction hash, clears the address input, and fires
`triggerLedgerRefresh(targetUserAddress || depositForUserAddress)`.  No
`setTimeout` is registered in this handler.  The `finally` clause clears
the in-flight flag. -/
def handleDepositForUserResolveOk (props : DashProps)
    (capturedAddress : String) (s : DashState) (result : TransactionResult) :
    DashState × Effects :=
  let txHash := strOr result.transactionHash result.hash
  let s1 := { s with depositForUserAmount := "" }
  let s2 :=
    if props.hideAccountSelection then
      { s1 with fundingSuccess := true, fundingTxHash := txHash }
    else s1
  let addr := strOr props.targetUserAddress capturedAddress
  ({ s2 with depositForUserAddress := "", isDepositingForUser := false },
   { outcomes := [result],
     notifications := if addr = "" then [] else [addr],
     scheduled := [] })

/-- Start of `handleRequestWithdraw`: returns early when the PaymentManager
or the amount input is missing, else sets the in-flight flag, clears the
error and issues `requestWithdraw`.  The handler performs no check of
`withdrawInfo`: nothing here rejects a request while one is already
pending. -/
def handleRequestWithdrawStart (s : DashState) : DashState × List PMCall :=
  match s.paymentManager with
  | none => (s, [])
  | some _ =>
    if s.withdrawAmount = "" then (s, [])
    else
      ({ s with isRequestingWithdraw := true, error := "" },
       [PMCall.requestWithdraw s.withdrawAmount])

/-- Success continuation of `handleRequestWithdraw`: emits the result,
clears the amount input, schedules `setTimeout(loadWithdrawalStatus, 2000)`;
the `triggerLedgerRefresh` line reads the out-of-scope `accountAddress`
exactly as in `handleDeposit` (notification only for a truthy
`targetUserAddress`).  The `finally` clause clears the in-flight flag. -/
def handleRequestWithdrawResolveOk (props : DashProps) (s : DashState)
    (result : TransactionResult) : DashState × Effects :=
  ({ s with withdrawAmount := "", isRequestingWithdraw := false },
   { outcomes := [result],
     notifications :=
       if props.targetUserAddress = "" then [] else [props.targetUserAddress],
     scheduled := [(2000, ScheduledFn.loadWithdrawalStatus)] })

/-- Start of `handleExecuteWithdraw`: returns early when the PaymentManager
or `withdrawInfo` is missing, else sets the in-flight flag, clears the
error and issues `withdraw` with `withdrawInfo.amount` — the amount of the
pending request, not the `withdrawAmount` input.  No `canExecuteWithdraw`
service call is made here: the only calls the handler issues are the ones
returned. -/
def handleExecuteWithdrawStart (s : DashState) : DashState × List PMCall :=
  match s.paymentManager, s.withdrawInfo with
  | some _, some wi =>
    ({ s with isExecutingWithdraw := true, error := "" },
     [PMCall.withdraw wi.amount])
  | _, _ => (s, [])

/-- Success continuation of `handleExecuteWithdraw`: emits the result,
clears `withdrawInfo` and `canExecuteInfo`, schedules
`setTimeout(loadBalance, 2000)`; `triggerLedgerRefresh` as in
`handleDeposit`.  The `finally` clause clears the in-flight flag. -/
def handleExecuteWithdrawResolveOk (props : DashProps) (s : DashState)
    (result : TransactionResult) : DashState × Effects :=
  ({ s with withdrawInfo := none, canExecuteInfo := none,
            isExecutingWithdraw := false },
   { outcomes := [result],
     notifications :=
       if props.targetUserAddress = "" then [] else [props.targetUserAddress],
     scheduled := [(2000, ScheduledFn.loadBalance)] })

/-- Start of `loadWithdrawalStatus`: resolves the address from the account
only (no `targetUserAddress` here), returns early when the PaymentManager
or the address is missing, else sets the checking flag and issues
`getWithdrawRequest`. -/
def loadWithdrawalStatusStart (s : DashState) : DashState × List PMCall :=
  let accountAddress := accountAddr s.account
  match s.paymentManager with
  | none => (s, [])
  | some _ =>
    if accountAddress = "" then (s, [])
    else
      ({ s with isCheckingWithdraw := true },
       [PMCall.getWithdrawRequest accountAddress])

/-- Continuation of `loadWithdrawalStatus` once `getWithdrawRequest` has
resolved with `withdraw`: stores it; if it is pending, additionally issues
`canExecuteWithdraw` and stores its answer `canExec`, else clears
`canExecuteInfo`.  The `finally` clause resets the checking flag. -/
def loadWithdrawalStatusResolveOk (s : DashState) (withdraw : WithdrawInfo)
    (canExec : CanExecuteInfo) : DashState × List PMCall :=
  let accountAddress := accountAddr s.account
  if withdraw.isPending then
    ({ s with withdrawInfo := some withdraw, canExecuteInfo := some canExec,
              isCheckingWithdraw := false },
     [PMCall.canExecuteWithdraw accountAddress])
  else
    ({ s with withdrawInfo := some withdraw, canExecuteInfo := none,
              isCheckingWithdraw := false }, [])

/-! ## PaymentManagementDashboard: rendering guards and effects -/

/-- The request-withdrawal input and button are rendered only when no
pending withdrawal exists (`(!withdrawInfo || !withdrawInfo.isPending)`).
While a request is pending the section is absent from the page; the source
renders a pending-status panel in its place and surfaces no explicit
"already pending" signal. -/
def requestWithdrawRendered (s : DashState) : Bool :=
  match s.withdrawInfo with
  | none => true
  | some wi => !wi.isPending

/-- The execute-withdrawal button is rendered only when
`withdrawInfo && withdrawInfo.isPending && canExecuteInfo?.canExecute`:
the gate is the cached `canExecuteInfo` from the last
`loadWithdrawalStatus`, not a fresh service check. -/
def executeWithdrawRendered (s : DashState) : Bool :=
  match s.withdrawInfo, s.canExecuteInfo with
  | some wi, some ce => wi.isPending && ce.canExecute
  | _, _ => false

/-- `canExecuteInfo?.canExecute` as the JSX reads it. -/
def cachedCanExecute : Option CanExecuteInfo → Bool
  | some ce => ce.canExecute
  | none => false

/-- The EOA-enforcement effect (`disablePkpOption` with source `pkp`): it
silently switches the source back to `eoa`.  It calls neither `showError`
nor `setError`: no error is surfaced. -/
def enforceEoaOnly (props : DashProps) (s : DashState) : DashState :=
  if props.disablePkpOption ∧ s.accountSource = AccountSource.pkp then
    { s with accountSource := AccountSource.eoa }
  else s

/-- Synchronous prefix of the PKP-derivation effect: it returns before
touching anything when the source is not `pkp` or `disablePkpOption` is
set; otherwise it resets the account and, when the auth context, key and
client are available (`canUsePkp`), starts the asynchronous derivation.
The returned flag says whether a derivation was started. -/
def pkpDerivationEffectStart (props : DashProps) (canUsePkp : Bool)
    (s : DashState) : DashState × Bool :=
  if s.accountSource ≠ AccountSource.pkp ∨ props.disablePkpOption then
    (s, false)
  else
    let s1 := { s with account := none }
    if canUsePkp = false then (s1, false) else (s1, true)

/-! ## PaymentManagementDashboard: event traces

The browser is single-threaded and event-driven: an execution is a sequence
of atomic events, each running one synchronous handler prefix or one promise
continuation to completion.  `stepDash` interprets each event by the handler
functions above. -/

/-- The events of an execution of the dashboard. -/
inductive DEvent where
  /-- the auto-refresh interval fires -/
  | tick
  /-- the refresh button invokes `loadBalance` (also: a scheduled
  `setTimeout(loadBalance, _)` fires) -/
  | manualRefresh
  /-- the `i`-th outstanding `getBalance` promise resolves -/
  | resolveBalanceOk (i : Nat) (balance : BalanceInfo)
  /-- the `i`-th outstanding `getBalance` promise rejects -/
  | resolveBalanceErr (i : Nat) (msg : String)
  /-- an account switch completes: `setAccount` with the new account and
  `initializePaymentManager` resolving with a fresh session token.  Nothing
  in the source cancels or discards the outstanding `getBalance` promises
  here -/
  | accountReady (a : Account) (pm : Nat)
  /-- the deposit button invokes `handleDeposit` -/
  | startDeposit
  /-- the deposit promise resolves -/
  | resolveDepositOk (result : TransactionResult)
  /-- the deposit-for-user button invokes `handleDepositForUser` -/
  | startDepositForUser
  /-- the deposit-for-user promise resolves; `captured` is the recipient
  address its closure read at invocation -/
  | resolveDepositForUserOk (captured : String) (result : TransactionResult)
  /-- the request-withdrawal button invokes `handleRequestWithdraw` -/
  | startRequestWithdraw
  /-- the request-withdrawal promise resolves -/
  | resolveRequestWithdrawOk (result : TransactionResult)
  /-- the execute-withdrawal button invokes `handleExecuteWithdraw` -/
  | startExecuteWithdraw
  /-- the execute-withdrawal promise resolves -/
  | resolveExecuteWithdrawOk (result : TransactionResult)
  /-- the refresh-status button invokes `loadWithdrawalStatus` -/
  | startWithdrawalStatus
  /-- the withdrawal-status promises resolve with the request and, when it
  is pending, the service's eligibility answer -/
  | resolveWithdrawalStatusOk (withdraw : WithdrawInfo)
      (canExec : CanExecuteInfo)

/-- One event applied to the state (effects dropped; the per-handler
theorems state them). -/
def stepDash (props : DashProps) (s : DashState) : DEvent → DashState
  | DEvent.tick => (autoRefreshTick props s).1
  | DEvent.manualRefresh => (loadBalanceStart props s).1
  | DEvent.resolveBalanceOk i b => loadBalanceResolveOk s i b
  | DEvent.resolveBalanceErr i m => loadBalanceResolveErr s i m
  | DEvent.accountReady a pm =>
      { s with account := some a, paymentManager := some pm }
  | DEvent.startDeposit => (handleDepositStart s).1
  | DEvent.resolveDepositOk r => (handleDepositResolveOk props s r).1
  | DEvent.startDepositForUser => (handleDepositForUserStart s).1
  | DEvent.resolveDepositForUserOk c r =>
      (handleDepositForUserResolveOk props c s r).1
  | DEvent.startRequestWithdraw => (handleRequestWithdrawStart s).1
  | DEvent.resolveRequestWithdrawOk r =>
      (handleRequestWithdrawResolveOk props s r).1
  | DEvent.startExecuteWithdraw => (handleExecuteWithdrawStart s).1
  | DEvent.resolveExecuteWithdrawOk r =>
      (handleExecuteWithdrawResolveOk props s r).1
  | DEvent.startWithdrawalStatus => (loadWithdrawalStatusStart s).1
  | DEvent.resolveWithdrawalStatusOk w c =>
      (loadWithdrawalStatusResolveOk s w c).1

/-- A whole execution: the events applied in order. -/
def runDash (props : DashProps) (s : DashState) (es : List DEvent) :
    DashState :=
  es.foldl (stepDash props) s

/-! ## PKP account derivation: effect-run cancellation

The PKP-derivation `useEffect` allocates a fresh `let cancelled = false`
per run, starts `derivePkpAccount()`, and returns a cleanup that sets
`cancelled = true`.  React runs the cleanup of the current run before the
next run starts (on every dependency change — source switch, services,
user, selected key — and on unmount).  The model numbers the runs with a
generation counter: each run keeps its own `cancelled` flag, a new run
first executes the cleanup of the latest run and then starts with a fresh
flag, and a derivation that resolves installs the account only if its own
run's flag is still unset, exactly as
`if (!cancelled) setAccount(pkpViemAccount)` does. -/

/-- One effect run: its generation and its `cancelled` flag. -/
structure DeriveRun where
  gen : Nat
  cancelled : Bool
deriving DecidableEq

/-- The cleanup of the latest run: `cancelled = true` on the last flag. -/
def cancelLast : List DeriveRun → List DeriveRun
  | [] => []
  | [r] => [{ r with cancelled := true }]
  | r :: rs => r :: cancelLast rs

/-- Binder state: the account installed so far and every effect run. -/
structure BinderState where
  account : Option Account := none
  runs : List DeriveRun := []
  nextGen : Nat := 0
deriving DecidableEq

/-- Events of the derivation lifecycle. -/
inductive BEvent where
  /-- an effect re-run (source switch or other dependency change): React
  executes the previous run's cleanup, then the new run starts a derivation
  with a fresh `cancelled` flag -/
  | newRun
  /-- the derivation started by run `g` resolves with account `a`; the
  continuation installs it only when run `g`'s flag is unset -/
  | resolve (g : Nat) (a : Account)

/-- One binder event applied to the state. -/
def stepBinder (s : BinderState) : BEvent → BinderState
  | BEvent.newRun =>
      { s with runs := cancelLast s.runs ++ [⟨s.nextGen, false⟩],
               nextGen := s.nextGen + 1 }
  | BEvent.resolve g a =>
      match s.runs.find? (fun r => r.gen == g) with
      | some r => if r.cancelled then s else { s with account := some a }
      | none => s

/-- A whole derivation-lifecycle execution. -/
def runBinder (s : BinderState) (es : List BEvent) : BinderState :=
  es.foldl stepBinder s

/-- Every run except the latest one has been cancelled. -/
def allButLastCancelled : List DeriveRun → Prop
  | [] => True
  | [_] => True
  | r :: rs => r.cancelled = true ∧ allButLastCancelled rs

/-- The invariant tying flags to generations: an uncancelled run is the
run of the latest generation. -/
def binderInv (s : BinderState) : Prop :=
  (∀ r ∈ s.runs, r.cancelled = false → r.gen + 1 = s.nextGen) ∧
  allButLastCancelled s.runs

theorem cancelLast_all_cancelled (l : List DeriveRun)
    (h : allButLastCancelled l) : ∀ r ∈ cancelLast l, r.cancelled = true := by
  induction l with
  | nil => intro r hr; simp [cancelLast] at hr
  | cons hd tl ih =>
    intro r hr
    cases tl with
    | nil =>
      simp [cancelLast] at hr
      rw [hr]
    | cons hd2 tl2 =>
      rw [show cancelLast (hd :: hd2 :: tl2) =
            hd :: cancelLast (hd2 :: tl2) from rfl] at hr
      rcases List.mem_cons.mp hr with h1 | h2
      · rw [h1]; exact h.1
      · exact ih h.2 r h2

theorem allButLastCancelled_append (l : List DeriveRun) (r : DeriveRun)
    (h : ∀ x ∈ l, x.cancelled = true) :
    allButLastCancelled (l ++ [r]) := by
  induction l with
  | nil => simp [allButLastCancelled]
  | cons hd tl ih =>
    cases tl with
    | nil =>
      refine ⟨h hd (by simp), ?_⟩
      simp [allButLastCancelled]
    | cons hd2 tl2 =>
      refine ⟨h hd (by simp), ?_⟩
      exact ih (fun x hx => h x (List.mem_cons_of_mem hd hx))

theorem binderInv_step (s : BinderState) (e : BEvent) (h : binderInv s) :
    binderInv (stepBinder s e) := by
  cases e with
  | newRun =>
    refine ⟨?_, ?_⟩
    · intro r hr hrc
      simp only [stepBinder] at hr ⊢
      rcases List.mem_append.mp hr with h1 | h2
      · exact absurd hrc (by
          rw [cancelLast_all_cancelled s.runs h.2 r h1]; simp)
      · simp at h2
        rw [h2]
    · simp only [stepBinder]
      exact allButLastCancelled_append _ _
        (cancelLast_all_cancelled s.runs h.2)
  | resolve g a =>
    simp only [stepBinder]
    cases hf : s.runs.find? (fun r => r.gen == g) with
    | none => exact h
    | some r =>
      by_cases hc : r.cancelled
      · simp [hc]
        exact h
      · simp [hc]
        exact ⟨h.1, h.2⟩

theorem binderInv_run (s : BinderState) (es : List BEvent)
    (h : binderInv s) : binderInv (runBinder s es) := by
  induction es generalizing s with
  | nil => exact h
  | cons e rest ih => exact ih (stepBinder s e) (binderInv_step s e h)

/-- The initial binder state satisfies the invariant. -/
theorem binderInv_init : binderInv {} := by
  constructor
  · intro r hr
    simp at hr
  · exact trivial

/-! ## Balance-invariant preservation over traces -/

/-- The Balance invariant of the data model, on the exact smallest-unit
integers: `availableBalance <= totalBalance` (vacuous while no balance is
loaded). -/
def balInvariant : Option BalanceInfo → Prop
  | none => True
  | some b => b.rawAvailableBalance ≤ b.rawTotalBalance

/-- The remote `getBalance` boundary assumption at one event: a balance the
service hands to a resolving refresh satisfies the invariant.  All other
events carry no balance. -/
def eventRespectsBalInvariant : DEvent → Prop
  | DEvent.resolveBalanceOk _ b => b.rawAvailableBalance ≤ b.rawTotalBalance
  | _ => True

theorem loadBalanceStart_balanceInfo (props : DashProps) (s : DashState) :
    (loadBalanceStart props s).1.balanceInfo = s.balanceInfo := by
  unfold loadBalanceStart
  cases s.paymentManager with
  | none => rfl
  | some pm =>
    by_cases h : strOr props.targetUserAddress (accountAddr s.account) = "" <;>
      simp [h]

theorem stepDash_balInvariant (props : DashProps) (s : DashState) (e : DEvent)
    (he : eventRespectsBalInvariant e) (h0 : balInvariant s.balanceInfo) :
    balInvariant ((stepDash props s e).balanceInfo) := by
  cases e with
  | tick =>
    unfold stepDash autoRefreshTick
    by_cases h : autoRefreshActive s = true
    · rw [if_pos h, loadBalanceStart_balanceInfo]; exact h0
    · rw [if_neg h]; exact h0
  | manualRefresh =>
    unfold stepDash
    rw [loadBalanceStart_balanceInfo]; exact h0
  | resolveBalanceOk i b =>
    simp only [stepDash]
    unfold loadBalanceResolveOk
    by_cases h : i < s.pendingBalance.length
    · rw [if_pos h]; exact he
    · rw [if_neg h]; exact h0
  | resolveBalanceErr i m =>
    simp only [stepDash]
    unfold loadBalanceResolveErr
    by_cases h : i < s.pendingBalance.length
    · rw [if_pos h]; exact h0
    · rw [if_neg h]; exact h0
  | accountReady a pm => exact h0
  | startDeposit =>
    unfold stepDash handleDepositStart
    cases s.paymentManager with
    | none => exact h0
    | some pm =>
      by_cases h : s.depositAmount = "" <;> simp [h] <;> exact h0
  | resolveDepositOk r => exact h0
  | startDepositForUser =>
    unfold stepDash handleDepositForUserStart
    cases s.paymentManager with
    | none => exact h0
    | some pm =>
      by_cases h : s.depositForUserAmount = "" ∨ s.depositForUserAddress = "" <;>
        simp [h] <;> exact h0
  | resolveDepositForUserOk c r =>
    unfold stepDash handleDepositForUserResolveOk
    by_cases h : props.hideAccountSelection = true <;> simp [h] <;> exact h0
  | startRequestWithdraw =>
    unfold stepDash handleRequestWithdrawStart
    cases s.paymentManager with
    | none => exact h0
    | some pm =>
      by_cases h : s.withdrawAmount = "" <;> simp [h] <;> exact h0
  | resolveRequestWithdrawOk r => exact h0
  | startExecuteWithdraw =>
    unfold stepDash handleExecuteWithdrawStart
    cases s.paymentManager with
    | none => exact h0
    | some pm =>
      cases s.withdrawInfo with
      | none => exact h0
      | some wi => exact h0
  | resolveExecuteWithdrawOk r => exact h0
  | startWithdrawalStatus =>
    unfold stepDash loadWithdrawalStatusStart
    cases s.paymentManager with
    | none => exact h0
    | some pm =>
      by_cases h : accountAddr s.account = "" <;> simp [h] <;> exact h0
  | resolveWithdrawalStatusOk w c =>
    unfold stepDash loadWithdrawalStatusResolveOk
    by_cases h : w.isPending = true <;> simp [h] <;> exact h0

/-- Claim C5 (confirmed, under the remote-ledger boundary assumption): for
every execution and after every successful Balance refresh, the stored
Balance satisfies `availableBalance <= totalBalance` on the exact integer
smallest-unit representations.  The component stores each refresh result by
whole replacement (`setBalanceInfo(balance)`) and never computes or mutates
the two fields itself, so the stored pair satisfies the inequality whenever
every balance the remote `getBalance` hands to a resolving refresh does —
the boundary assumption `eventRespectsBalInvariant` on the trace. -/
theorem balance_invariant_after_refresh (props : DashProps) (s : DashState)
    (es : List DEvent) (h0 : balInvariant s.balanceInfo)
    (h : ∀ e ∈ es, eventRespectsBalInvariant e) :
    balInvariant ((runDash props s es).balanceInfo) := by
  induction es generalizing s with
  | nil => exact h0
  | cons e rest ih =>
    exact ih (stepDash props s e)
      (stepDash_balInvariant props s e (h e (List.mem_cons_self e rest)) h0)
      (fun e' he' => h e' (List.mem_cons_of_mem e he'))

/-! ## Concrete instances -/

/-- Props with no configuration flags set. -/
def egProps : DashProps := {}

/-- A state with a bound account and a ready PaymentManager session `0`,
auto-refresh enabled (its default), nothing in flight. -/
def egDash : DashState :=
  { account := some ⟨"0xAAA"⟩, accountSource := AccountSource.eoa,
    paymentManager := some 0 }

/-- A balance answer of the remote service (total 42, available 41). -/
def egBalance : BalanceInfo :=
  { totalBalance := "0.000000000000000042", availableBalance := "0.000000000000000041",
    rawTotalBalance := 42, rawAvailableBalance := 41 }

/-- Witness for C5: a refresh issued and resolved with `egBalance` leaves a
stored balance satisfying the invariant. -/
theorem balance_invariant_after_refresh_witness :
    balInvariant ((runDash egProps egDash
      [DEvent.tick, DEvent.resolveBalanceOk 0 egBalance]).balanceInfo) :=
  balance_invariant_after_refresh egProps egDash
    [DEvent.tick, DEvent.resolveBalanceOk 0 egBalance]
    trivial
    (by
      intro e he
      simp only [List.mem_cons, List.mem_singleton] at he
      rcases he with h1 | h2 | h3
      · rw [h1]; exact trivial
      · rw [h2]; exact (by decide : (41 : Int) ≤ 42)
      · exact absurd h3 (List.not_mem_nil e))

/-- Counterexample to claim C1 as stated: with a ready session and
auto-refresh on, one timer tick leaves one `getBalance` outstanding, and a
second tick before it resolves issues a second concurrent `getBalance` —
two refreshes are then in flight at once. -/
theorem autoRefresh_overlap_cex :
    (runDash egProps egDash [DEvent.tick]).pendingBalance.length = 1 ∧
    (autoRefreshTick egProps (runDash egProps egDash [DEvent.tick])).2 =
      [PMCall.getBalance "0xAAA"] ∧
    (runDash egProps egDash [DEvent.tick, DEvent.tick]).pendingBalance.length
      = 2 := by decide

/-- Claim C1 (amended): the auto-refresh loop has no single-outstanding
guard.  `loadBalance` checks only that the PaymentManager and the address
are present: whenever the effect is mounted and those hold, a timer tick
issues a `getBalance` call even while one (here: at least one,
`s.pendingBalance ≠ []`) is already outstanding, growing the set of
in-flight refreshes by one. -/
theorem autoRefreshTick_no_single_outstanding_guard (props : DashProps)
    (s : DashState) (h : autoRefreshActive s = true)
    (haddr : strOr props.targetUserAddress (accountAddr s.account) ≠ "")
    (hpend : s.pendingBalance ≠ []) :
    (autoRefreshTick props s).2 =
      [PMCall.getBalance (strOr props.targetUserAddress (accountAddr s.account))] ∧
    (autoRefreshTick props s).1.pendingBalance.length =
      s.pendingBalance.length + 1 := by
  have hsome : s.paymentManager.isSome = true := by
    unfold autoRefreshActive at h
    simp only [Bool.and_eq_true] at h
    exact h.1.2
  obtain ⟨pm, hpm⟩ := Option.isSome_iff_exists.mp hsome
  unfold autoRefreshTick loadBalanceStart
  rw [h]
  simp [hpm, haddr]

/-- A state like `egDash` with one `getBalance` already outstanding. -/
def egDashBusy : DashState :=
  { egDash with isLoadingBalance := true,
                pendingBalance := [⟨0, "0xAAA"⟩] }

/-- Witness for the amended C1 at `egDashBusy`. -/
theorem autoRefreshTick_no_guard_witness :
    (autoRefreshTick egProps egDashBusy).2 =
      [PMCall.getBalance
        (strOr egProps.targetUserAddress (accountAddr egDashBusy.account))] ∧
    (autoRefreshTick egProps egDashBusy).1.pendingBalance.length =
      egDashBusy.pendingBalance.length + 1 :=
  autoRefreshTick_no_single_outstanding_guard egProps egDashBusy
    (by decide) (by decide) (by decide)

/-- Counterexample to claim C2 as stated: a refresh is issued for account
`0xAAA` under session `0`; the account is then switched to `0xBBB` with new
session `1` while that call is still in flight (the outstanding call's
captured session `0` differs from the new session); when the stale call
resolves, its result overwrites the Balance shown for the new account. -/
theorem staleBalance_overwrites_cex :
    (runDash egProps egDash
      [DEvent.tick, DEvent.accountReady ⟨"0xBBB"⟩ 1]).pendingBalance =
      [⟨0, "0xAAA"⟩] ∧
    (runDash egProps egDash
      [DEvent.tick, DEvent.accountReady ⟨"0xBBB"⟩ 1,
       DEvent.resolveBalanceOk 0 egBalance]).account = some ⟨"0xBBB"⟩ ∧
    (runDash egProps egDash
      [DEvent.tick, DEvent.accountReady ⟨"0xBBB"⟩ 1,
       DEvent.resolveBalanceOk 0 egBalance]).paymentManager = some 1 ∧
    (runDash egProps egDash
      [DEvent.tick, DEvent.accountReady ⟨"0xBBB"⟩ 1,
       DEvent.resolveBalanceOk 0 egBalance]).balanceInfo = some egBalance :=
  by decide

/-- Claim C2 (amended): the `loadBalance` continuation applies its result
unconditionally — `setBalanceInfo(balance)` carries no session/address
check — so a refresh result is installed as the displayed Balance even when
the session it was issued under (`pm` of the resolving outstanding call)
differs from the currently active session: stale results are not
discarded. -/
theorem loadBalanceResolve_applies_unconditionally (s : DashState) (i : Nat)
    (b : BalanceInfo) (h : i < s.pendingBalance.length)
    (hstale : some (s.pendingBalance.get ⟨i, h⟩).pm ≠ s.paymentManager) :
    (loadBalanceResolveOk s i b).balanceInfo = some b := by
  unfold loadBalanceResolveOk
  rw [if_pos h]

/-- A state whose only outstanding refresh was issued under session `0`
while the active session is `1`. -/
def egDashStale : DashState :=
  { egDash with account := some ⟨"0xBBB"⟩, paymentManager := some 1,
                pendingBalance := [⟨0, "0xAAA"⟩] }

/-- Witness for the amended C2 at `egDashStale`. -/
theorem loadBalanceResolve_unconditional_witness :
    (loadBalanceResolveOk egDashStale 0 egBalance).balanceInfo =
      some egBalance :=
  loadBalanceResolve_applies_unconditionally egDashStale 0 egBalance
    (by decide) (by decide)

/-- The pending withdrawal request used in the withdrawal instances. -/
def egWi : WithdrawInfo :=
  { amount := "5", timestamp := "1700000000", isPending := true }

/-- A state with a ready session, a pending withdrawal of amount `"5"`, and
a cached eligibility answer of `canExecute = false`. -/
def egDashExec : DashState :=
  { egDash with withdrawInfo := some egWi,
                canExecuteInfo := some { canExecute := false,
                                         timeRemaining := "1800" } }

/-- Counterexample to claim C3 as stated: at a state whose cached
eligibility says `canExecute = false`, invoking the execute handler issues
exactly `[withdraw "5"]` — the withdraw call is attempted, and no
`canExecuteWithdraw` service check is among the calls made at call time. -/
theorem executeWithdraw_no_calltime_check_cex :
    egDashExec.canExecuteInfo =
      some { canExecute := false, timeRemaining := "1800" } ∧
    (handleExecuteWithdrawStart egDashExec).2 = [PMCall.withdraw "5"] :=
  by decide

/-- Claim C3 (amended): `handleExecuteWithdraw` makes no call-time
`canExecuteWithdraw` check: whenever a PaymentManager and a `withdrawInfo`
are present it issues exactly the `withdraw` call and nothing else.
Eligibility gating exists only in rendering: the execute button is shown
exactly when the withdrawal is pending and the *cached* `canExecuteInfo`
from the last `loadWithdrawalStatus` says `canExecute`. -/
theorem handleExecuteWithdraw_gating (s : DashState) (pm : Nat)
    (wi : WithdrawInfo) (hpm : s.paymentManager = some pm)
    (hwi : s.withdrawInfo = some wi) :
    (handleExecuteWithdrawStart s).2 = [PMCall.withdraw wi.amount] ∧
    (∀ u, PMCall.canExecuteWithdraw u ∉ (handleExecuteWithdrawStart s).2) ∧
    executeWithdrawRendered s =
      (wi.isPending && cachedCanExecute s.canExecuteInfo) := by
  unfold handleExecuteWithdrawStart executeWithdrawRendered
  rw [hpm, hwi]
  refine ⟨rfl, ?_, ?_⟩
  · intro u hu
    simp at hu
  · cases s.canExecuteInfo with
    | none => simp [cachedCanExecute]
    | some ce => simp [cachedCanExecute]

/-- Witness for the amended C3 at `egDashExec`. -/
theorem handleExecuteWithdraw_gating_witness :
    (handleExecuteWithdrawStart egDashExec).2 = [PMCall.withdraw egWi.amount] ∧
    (∀ u, PMCall.canExecuteWithdraw u ∉ (handleExecuteWithdrawStart egDashExec).2) ∧
    executeWithdrawRendered egDashExec =
      (egWi.isPending && cachedCanExecute egDashExec.canExecuteInfo) :=
  handleExecuteWithdraw_gating egDashExec 0 egWi (by decide) (by decide)

/-- A state with a ready session, a pending withdrawal, and a filled
withdraw-amount input. -/
def egDashPendingWd : DashState :=
  { egDash with withdrawInfo := some egWi, withdrawAmount := "1" }

/-- Counterexample to claim C4 as stated: with a withdrawal already
pending, invoking `handleRequestWithdraw` issues a `requestWithdraw` call
to the remote service (it is not rejected without contacting it), and the
state carries no "already pending" signal — the error slot is cleared. -/
theorem requestWithdraw_not_rejected_cex :
    egDashPendingWd.withdrawInfo = some egWi ∧
    egWi.isPending = true ∧
    (handleRequestWithdrawStart egDashPendingWd).2 =
      [PMCall.requestWithdraw "1"] ∧
    (handleRequestWithdrawStart egDashPendingWd).1.error = "" := by decide

/-- Claim C4 (amended): while a withdrawal is pending, duplicate submission
is prevented only by rendering — the request-withdrawal input and button
are absent from the page — not by the handler: `handleRequestWithdraw`
performs no pending check, and if invoked with a PaymentManager and a
non-empty amount it contacts the remote service and surfaces no explicit
"already pending" signal (it clears the error slot). -/
theorem requestWithdraw_ui_gate (s : DashState) (pm : Nat)
    (wi : WithdrawInfo) (hpm : s.paymentManager = some pm)
    (hwi : s.withdrawInfo = some wi) (hp : wi.isPending = true)
    (hamt : s.withdrawAmount ≠ "") :
    requestWithdrawRendered s = false ∧
    (handleRequestWithdrawStart s).2 =
      [PMCall.requestWithdraw s.withdrawAmount] ∧
    (handleRequestWithdrawStart s).1.error = "" := by
  unfold requestWithdrawRendered handleRequestWithdrawStart
  rw [hwi, hpm]
  simp [hamt, hp]

/-- Witness for the amended C4 at `egDashPendingWd`. -/
theorem requestWithdraw_ui_gate_witness :
    requestWithdrawRendered egDashPendingWd = false ∧
    (handleRequestWithdrawStart egDashPendingWd).2 =
      [PMCall.requestWithdraw egDashPendingWd.withdrawAmount] ∧
    (handleRequestWithdrawStart egDashPendingWd).1.error = "" :=
  requestWithdraw_ui_gate egDashPendingWd 0 egWi (by decide) (by decide)
    (by decide) (by decide)

/-- A transaction result of a successful remote call. -/
def egTxResult : TransactionResult :=
  { transactionHash := "0xabc123", hash := "" }

/-- A state mid-flight in a deposit-for-user for recipient `0xBBB`. -/
def egDashDepositing : DashState :=
  { egDash with depositForUserAddress := "0xBBB",
                depositForUserAmount := "0.5",
                isDepositingForUser := true }

/-- Counterexample to claim C6 as stated: a successful
`depositFor("0xBBB", "0.5")` emits the outcome, clears the amount input and
fires the ledger-changed notification for `0xBBB` — but registers no
`setTimeout` at all: no deferred Balance refresh is scheduled (the
`setTimeout(loadBalance, 2000)` line exists only in the self-deposit
handler). -/
theorem depositForUser_no_deferred_refresh_cex :
    (handleDepositForUserResolveOk egProps "0xBBB" egDashDepositing
        egTxResult).2.outcomes = [egTxResult] ∧
    (handleDepositForUserResolveOk egProps "0xBBB" egDashDepositing
        egTxResult).2.notifications = ["0xBBB"] ∧
    (handleDepositForUserResolveOk egProps "0xBBB" egDashDepositing
        egTxResult).2.scheduled = [] := by decide

/-- Claim C6 (amended): on every successful `depositFor`, the outcome is
emitted through `onTransactionComplete`, the amount input it was drawn from
is cleared, and a ledger-changed notification fires for
`targetUserAddress || depositForUserAddress` (when non-empty) — but no
deferred Balance refresh is scheduled: the handler registers no
`setTimeout`.  The 2-second deferred `loadBalance` exists only in the
self-deposit handler `handleDeposit`. -/
theorem handleDepositForUser_success_effects (props : DashProps)
    (captured : String) (s : DashState) (result : TransactionResult) :
    (handleDepositForUserResolveOk props captured s result).2.outcomes =
      [result] ∧
    (handleDepositForUserResolveOk props captured s
      result).1.depositForUserAmount = "" ∧
    (handleDepositForUserResolveOk props captured s result).2.notifications =
      (if strOr props.targetUserAddress captured = "" then []
       else [strOr props.targetUserAddress captured]) ∧
    (handleDepositForUserResolveOk props captured s result).2.scheduled = [] ∧
    (handleDepositResolveOk props s result).2.scheduled =
      [(2000, ScheduledFn.loadBalance)] := by
  unfold handleDepositForUserResolveOk handleDepositResolveOk
  by_cases h : props.hideAccountSelection = true <;> simp [h]

/-- Props that disable the PKP source. -/
def egPropsNoPkp : DashProps := { disablePkpOption := true }

/-- A freshly mounted state whose requested source is PKP. -/
def egDashPkp : DashState := { accountSource := AccountSource.pkp }

/-- Counterexample to claim C7 as stated: with `disablePkpOption` set and
PKP selected, the enforcement effect switches the source to EOA and no
derivation is attempted — but no configuration error is surfaced: the
error slot stays empty. -/
theorem disabledSource_silent_cex :
    (enforceEoaOnly egPropsNoPkp egDashPkp).accountSource =
      AccountSource.eoa ∧
    (enforceEoaOnly egPropsNoPkp egDashPkp).error = "" ∧
    (pkpDerivationEffectStart egPropsNoPkp true egDashPkp).2 = false := by
  decide

/-- Claim C7 (amended): when the PKP source is disabled by configuration,
selecting it is rejected up front — the enforcement effect silently coerces
the source back to EOA, leaving the error slot untouched (no configuration
error is surfaced), and the derivation effect returns before doing
anything: account binding for the disabled source is not attempted. -/
theorem disabledPkp_coerced_silently (props : DashProps) (s : DashState)
    (canUsePkp : Bool) (hd : props.disablePkpOption = true) :
    (enforceEoaOnly props s).accountSource = AccountSource.eoa ∧
    (enforceEoaOnly props s).error = s.error ∧
    (pkpDerivationEffectStart props canUsePkp s).2 = false ∧
    (pkpDerivationEffectStart props canUsePkp s).1 = s := by
  unfold enforceEoaOnly pkpDerivationEffectStart
  cases hsrc : s.accountSource <;> simp [hd, hsrc]

/-- Witness for the amended C7 at `egPropsNoPkp`, `egDashPkp`. -/
theorem disabledPkp_coerced_silently_witness :
    (enforceEoaOnly egPropsNoPkp egDashPkp).accountSource =
      AccountSource.eoa ∧
    (enforceEoaOnly egPropsNoPkp egDashPkp).error = egDashPkp.error ∧
    (pkpDerivationEffectStart egPropsNoPkp true egDashPkp).2 = false ∧
    (pkpDerivationEffectStart egPropsNoPkp true egDashPkp).1 = egDashPkp :=
  disabledPkp_coerced_silently egPropsNoPkp egDashPkp true (by decide)

/-- Claim C8 (confirmed): whenever the source (or any other dependency of
the derivation effect) changes while a PKP derivation is still pending, the
pending run is cancelled through its closure's `cancelled` flag — the
effect cleanup sets it before the next run starts — so if that derivation
later resolves, `if (!cancelled) setAccount(...)` discards the result and
the stale account is never installed.  `g + 1 < nextGen` says a newer run
started after run `g` began (the switch happened while `g` was pending). -/
theorem pkpDerivation_stale_result_discarded (es : List BEvent) (g : Nat)
    (a : Account) (hg : g + 1 < (runBinder {} es).nextGen) :
    (stepBinder (runBinder {} es) (BEvent.resolve g a)).account =
      (runBinder {} es).account := by
  have hinv := binderInv_run {} es binderInv_init
  simp only [stepBinder]
  cases hf : (runBinder {} es).runs.find? (fun r => r.gen == g) with
  | none => rfl
  | some r =>
    have hmem : r ∈ (runBinder {} es).runs := List.mem_of_find?_eq_some hf
    have hgen : r.gen = g := by
      have hp := List.find?_some hf
      simpa using hp
    by_cases hc : r.cancelled = true
    · simp [hc]
    · exfalso
      have hcf : r.cancelled = false := by
        cases hcv : r.cancelled
        · rfl
        · exact absurd hcv hc
      have h2 := hinv.1 r hmem hcf
      rw [hgen] at h2
      omega

/-- Witness for C8: after two effect runs, the resolution of the first
run's derivation leaves the account untouched. -/
theorem pkpDerivation_stale_result_discarded_witness :
    (stepBinder (runBinder {} [BEvent.newRun, BEvent.newRun])
        (BEvent.resolve 0 ⟨"0xPKP"⟩)).account =
      (runBinder {} [BEvent.newRun, BEvent.newRun]).account :=
  pkpDerivation_stale_result_discarded [BEvent.newRun, BEvent.newRun] 0
    ⟨"0xPKP"⟩ (by decide)

/-- A state like `egDashExec` whose withdraw-amount input holds `"999"`,
a value different from the pending request's amount `"5"`. -/
def egDashExecInput : DashState := { egDashExec with withdrawAmount := "999" }

/-- Claim C9 (confirmed): the execute handler passes exactly the pending
request's amount (`withdrawInfo.amount`) to the remote `withdraw` call, and
the call is unchanged under any value of the user's withdraw-amount input
field. -/
theorem executeWithdraw_amount_from_pending (s : DashState) (pm : Nat)
    (wi : WithdrawInfo) (hpm : s.paymentManager = some pm)
    (hwi : s.withdrawInfo = some wi) :
    (handleExecuteWithdrawStart s).2 = [PMCall.withdraw wi.amount] ∧
    ∀ x : String,
      (handleExecuteWithdrawStart { s with withdrawAmount := x }).2 =
        [PMCall.withdraw wi.amount] := by
  constructor
  · unfold handleExecuteWithdrawStart
    rw [hpm, hwi]
  · intro x
    unfold handleExecuteWithdrawStart
    simp only []
    rw [show ({ s with withdrawAmount := x } : DashState).paymentManager =
          some pm from hpm,
        show ({ s with withdrawAmount := x } : DashState).withdrawInfo =
          some wi from hwi]

/-- Witness for C9 at `egDashExecInput` (input `"999"`, pending amount
`"5"`). -/
theorem executeWithdraw_amount_from_pending_witness :
    (handleExecuteWithdrawStart egDashExecInput).2 =
      [PMCall.withdraw egWi.amount] ∧
    ∀ x : String,
      (handleExecuteWithdrawStart { egDashExecInput with withdrawAmount := x }).2 =
        [PMCall.withdraw egWi.amount] :=
  executeWithdraw_amount_from_pending egDashExecInput 0 egWi (by decide)
    (by decide)
